import Mathlib

/-!
Shallow embedding of the WordPress blog-provider adapter
(`src/WordPressBlogProvider.ts`, `src/state/WordPressBlogState.ts`).

Conventions of the embedding:
* TypeScript optional / possibly-undefined fields become `Option`.
* JavaScript truthiness is modelled explicitly where the source relies on it:
  `!id` on a number is false exactly for `undefined`/`0`; `!s` on a string is
  false exactly for `undefined`/`""`; an object reference is truthy whenever
  present.
* `new Date(s)` and `new Date()` are modelled by the `JSDate` inductive: a
  parsed string and a wall-clock reading are distinct values, as the two are
  observably different in the source system.
* The wall clock (`new Date()`), the Markdown renderer (`marked`) and every
  backend response are effects; they are passed to the embedded operations as
  explicit arguments, and each operation additionally returns the list of
  backend calls it issued.
* Thrown exceptions become `Except String` results carrying the exact message.
-/

/-- Models a JavaScript `Date`: either `new Date(s)` for a string `s`, or
`new Date()` read from the wall clock at some instant `t`. -/
inductive JSDate where
  | fromString (s : String)
  | fromClock (t : Nat)
deriving DecidableEq, Repr

/-- The `{ rendered: string }` rich-text wrapper used for titles. -/
structure WPRendered where
  rendered : String
deriving DecidableEq, Repr

/-- The `{ rendered: string, protected: boolean }` wrapper used for content. -/
structure WPContent where
  rendered : String
  «protected» : Bool
deriving DecidableEq, Repr

/-- The backend's native post record (`WPPost`), restricted to the fields the
provider reads or writes.  `WPPostToBlogPost` takes a `Partial<WPPost>`, so
every field is optional. -/
structure WPPost where
  id : Option Nat
  date_gmt : Option String
  modified_gmt : Option String
  title : Option WPRendered
  content : Option WPContent
  status : Option String
  tags : Option (List Nat)
  featured_media : Option Int
deriving DecidableEq, Repr

/-- A backend tag record; `name` is optional because the resolver guards the
access with `tag?.name?`. -/
structure WPTag where
  id : Nat
  name : Option String
deriving DecidableEq, Repr

/-- The normalized domain status vocabulary (`BlogPost["status"]`). -/
inductive BlogStatus where
  | published
  | scheduled
  | draft
  | pending
  | «private»
deriving DecidableEq, Repr

/-- The normalized domain post record (`BlogPost`). -/
structure BlogPost where
  id : String
  title : String
  content : String
  status : BlogStatus
  created_at : JSDate
  updated_at : JSDate
  published_at : JSDate
deriving DecidableEq, Repr

/-- JS truthiness of an optional string: `!s` is true for `undefined` and `""`. -/
def strTruthy : Option String → Bool
  | none => false
  | some s => s != ""

/-- Models `x ? new Date(x) : now` for an optional timestamp string `x`. -/
def jsDateOrNow (x : Option String) (now : JSDate) : JSDate :=
  if strTruthy x then JSDate.fromString (x.getD "") else now

/-- The native-to-domain status map of `WPPostToBlogPost`
(`statusMap[status] ?? "draft"`, lines 34-47). -/
def statusToDomain (status : String) : BlogStatus :=
  if status = "publish" then .published
  else if status = "future" then .scheduled
  else if status = "draft" then .draft
  else if status = "pending" then .pending
  else if status = "private" then .«private»
  else .draft

/-- The domain-to-native status map of `updatePost` (lines 141-150). -/
def statusToNative : BlogStatus → String
  | .published => "publish"
  | .scheduled => "future"
  | .draft => "draft"
  | .pending => "pending"
  | .«private» => "private"

/-- `WPPostToBlogPost` (lines 20-52): validates id, title, content and status
with JS truthiness checks in source order, then builds the normalized record.
`now` is the single `new Date()` the source evaluates at translation time. -/
def WPPostToBlogPost (now : JSDate) (p : WPPost) : Except String BlogPost :=
  match p.id with
  | none => .error "Cannot convert WPPost to BlogPost: Missing required field: id"
  | some i =>
    if i = 0 then .error "Cannot convert WPPost to BlogPost: Missing required field: id"
    else match p.title with
    | none => .error "Cannot convert WPPost to BlogPost: Missing required field: title"
    | some t =>
      match p.content with
      | none => .error "Cannot convert WPPost to BlogPost: Missing required field: content"
      | some c =>
        match p.status with
        | none => .error "Cannot convert WPPost to BlogPost: Missing required field: status"
        | some st =>
          if st = "" then .error "Cannot convert WPPost to BlogPost: Missing required field: status"
          else .ok {
            id := toString i
            title := t.rendered
            content := c.rendered
            status := statusToDomain st
            created_at := jsDateOrNow p.modified_gmt now
            updated_at := jsDateOrNow p.modified_gmt now
            published_at := jsDateOrNow p.date_gmt now
          }

/-- The caller-side feature-image reference (`CreatePostData["feature_image"]`):
an upload result whose `id` is an optional string. -/
structure FeatureImage where
  id : Option String
  url : Option String
deriving DecidableEq, Repr

/-- `CreatePostData` as consumed by `createPost` (destructured with defaults
`content = ''`, `tags = []`). -/
structure CreatePostData where
  title : String
  content : Option String
  tags : Option (List String)
  feature_image : Option FeatureImage
deriving DecidableEq, Repr

/-- `UpdatePostData` as consumed by `updatePost`; every field optional. -/
structure UpdatePostData where
  title : Option String
  content : Option String
  tags : Option (List String)
  feature_image : Option FeatureImage
  status : Option BlogStatus
deriving DecidableEq, Repr

/-- Models JavaScript `parseInt(s, 10)`: skip leading whitespace, optional
sign, then leading decimal digits; `none` models `NaN`. -/
def jsParseInt (s : String) : Option Int :=
  let cs := s.toList.dropWhile fun c => c == ' ' || c == '\t' || c == '\n' || c == '\r'
  let signAndRest : Int × List Char :=
    match cs with
    | '-' :: rest => (-1, rest)
    | '+' :: rest => (1, rest)
    | _ => (1, cs)
  let digits := signAndRest.2.takeWhile Char.isDigit
  if digits.isEmpty then none
  else some (signAndRest.1 * (digits.foldl (fun acc c => acc * 10 + (c.toNat - 48)) 0 : Nat))

/-- The payload `createPost` sends to `client.post().create` (lines 101-107).
Note the source passes the raw `feature_image` object through under that key. -/
structure WPCreatePayload where
  title : WPRendered
  content : WPContent
  status : String
  tags : List Nat
  feature_image : Option FeatureImage
deriving DecidableEq, Repr

/-- The partial patch `updatePost` sends to `client.post().update`
(lines 127-150).  `featured_media` is an `Option` of a possibly-`NaN`
(`Option Int`) value because the source assigns `parseInt(feature_image.id)`
unchecked. -/
structure WPUpdatePayload where
  id : Option Nat
  title : Option WPRendered
  content : Option WPContent
  tags : Option (List Nat)
  featured_media : Option (Option Int)
  status : Option String
deriving DecidableEq, Repr

/-- One backend request, recorded in the order the provider issues them. -/
inductive BackendCall where
  | tagSearch (name : String)
  | tagCreate (name : String)
  | postCreate (payload : WPCreatePayload)
  | postUpdate (payload : WPUpdatePayload) (id : Option Nat)
  | postFindById (id : Option Int)
  | postFindAll
deriving DecidableEq, Repr

/-- Models JavaScript `toLowerCase()` on the ASCII range (tag names), mapping
each upper-case letter to its lower-case form. -/
def jsCharToLower (c : Char) : Char :=
  if 65 ≤ c.toNat ∧ c.toNat ≤ 90 then Char.ofNat (c.toNat + 32) else c

/-- `s.toLowerCase()` as used by the tag resolver. -/
def jsToLower (s : String) : String := ⟨s.data.map jsCharToLower⟩

/-- The case-insensitive match predicate of the resolver:
`tag?.name?.toLowerCase() === tagName.toLowerCase()` applied to one search
result, which may be null and whose name may be undefined. -/
def tagNameMatches (tagName : String) (t : Option WPTag) : Bool :=
  match t with
  | none => false
  | some tag =>
    match tag.name with
    | none => false
    | some n => jsToLower n == jsToLower tagName

/-- `getOrCreateTagIds` (lines 181-203) over abstract registry oracles.
`search name` is the result of `postTag().find(search=name)` and
`create name` the result of `postTag().create({name})`; `Except.error`
models a thrown exception, which the source catches per name (the name is
skipped).  A falsy create result (`if (newTag)`) contributes nothing.
Returns the pushed ids and the backend calls issued. -/
def getOrCreateTagIds (search : String → Except Unit (List (Option WPTag)))
    (create : String → Except Unit (Option WPTag)) :
    List String → List Nat × List BackendCall
  | [] => ([], [])
  | tagName :: rest =>
    let (restIds, restCalls) := getOrCreateTagIds search create rest
    match search tagName with
    | .error _ => (restIds, BackendCall.tagSearch tagName :: restCalls)
    | .ok existingTags =>
      match existingTags.find? (tagNameMatches tagName) with
      | some t =>
        let ids := match t with
          | some tag => [tag.id]
          | none => []
        (ids ++ restIds, BackendCall.tagSearch tagName :: restCalls)
      | none =>
        match create tagName with
        | .error _ =>
          (restIds, BackendCall.tagSearch tagName :: BackendCall.tagCreate tagName :: restCalls)
        | .ok newTag =>
          let ids := match newTag with
            | some tag => [tag.id]
            | none => []
          (ids ++ restIds,
            BackendCall.tagSearch tagName :: BackendCall.tagCreate tagName :: restCalls)

/-- Result of a provider operation in the embedding: the current-post slot
after the call, the backend calls issued, and the returned value or thrown
error. -/
def OpResult (α : Type) : Type := Option WPPost × List BackendCall × Except String α

/-- `createPost` (lines 90-117).  `render` models `marked`; `resp` is the
backend's reply to `post().create`; `now` is the translation wall clock.
The slot is mutated to `resp` before the returned record is translated, so a
translation failure still leaves the slot set (mirroring the source order). -/
def createPost (render : String → String)
    (tagSearch : String → Except Unit (List (Option WPTag)))
    (tagCreate : String → Except Unit (Option WPTag))
    (now : JSDate) (resp : Option WPPost) (data : CreatePostData)
    (slot : Option WPPost) : OpResult BlogPost :=
  match slot with
  | some _ =>
    (slot, [], .error "A post is currently selected. Clear the selection before creating a new post.")
  | none =>
    let content := data.content.getD ""
    let tags := data.tags.getD []
    let proceed := fun (_ : Unit) =>
      let html := render content
      let resolved := if tags.length > 0 then getOrCreateTagIds tagSearch tagCreate tags else ([], [])
      let payload : WPCreatePayload :=
        { title := ⟨data.title⟩
          content := ⟨html, false⟩
          status := "draft"
          tags := resolved.1
          feature_image := data.feature_image }
      let calls := resolved.2 ++ [BackendCall.postCreate payload]
      match resp with
      | some result => (some result, calls, WPPostToBlogPost now result)
      | none => (none, calls, .error "Failed to create post")
    match data.feature_image with
    | some fi =>
      if strTruthy fi.id then proceed ()
      else (none, [], .error "Wordpress feature image must be an attachment id - is wordpress not set as the CDN?")
    | none => proceed ()

/-- `updatePost` (lines 119-161).  Builds the partial patch field by field in
source order; tag resolution (and its backend calls) happens before the
feature-image check, so those calls are issued even when that check throws. -/
def updatePost (render : String → String)
    (tagSearch : String → Except Unit (List (Option WPTag)))
    (tagCreate : String → Except Unit (Option WPTag))
    (now : JSDate) (resp : Option WPPost) (data : UpdatePostData)
    (slot : Option WPPost) : OpResult BlogPost :=
  match slot with
  | none => (none, [], .error "No post is currently selected. Select a post before updating.")
  | some currentPost =>
    let titleField : Option WPRendered :=
      match data.title with
      | some t => if t == "" then none else some ⟨t⟩
      | none => none
    let contentField : Option WPContent :=
      match data.content with
      | some c => if c == "" then none else some ⟨render c, false⟩
      | none => none
    let resolved : Option (List Nat × List BackendCall) :=
      data.tags.map (getOrCreateTagIds tagSearch tagCreate)
    let tagCalls := match resolved with
      | some r => r.2
      | none => []
    let tagsField : Option (List Nat) := resolved.map (fun r => r.1)
    let finish := fun (featuredField : Option (Option Int)) =>
      let statusField : Option String := data.status.map statusToNative
      let payload : WPUpdatePayload :=
        { id := currentPost.id
          title := titleField
          content := contentField
          tags := tagsField
          featured_media := featuredField
          status := statusField }
      let calls := tagCalls ++ [BackendCall.postUpdate payload currentPost.id]
      match resp with
      | some result => (some result, calls, WPPostToBlogPost now result)
      | none => (some currentPost, calls, .error "Failed to update post")
    match data.feature_image with
    | some fi =>
      if strTruthy fi.id then finish (some (jsParseInt (fi.id.getD "")))
      else
        (some currentPost, tagCalls,
          .error "Wordpress feature image must be an attachment id - is wordpress not set as the CDN?")
    | none => finish none

/-- `selectPostById` (lines 163-173).  `resp` is the array returned by
`post().find(parseInt(id, 10))`; `post?.[0] == null` rejects both an empty
array and a null first element. -/
def selectPostById (now : JSDate) (resp : List (Option WPPost)) (idStr : String)
    (slot : Option WPPost) : OpResult BlogPost :=
  let calls := [BackendCall.postFindById (jsParseInt idStr)]
  match resp.head? with
  | some (some post) => (some post, calls, WPPostToBlogPost now post)
  | _ => (slot, calls, .error ("Post with ID " ++ idStr ++ " not found"))

/-- `clearCurrentPost` (lines 175-179). -/
def clearCurrentPost (_slot : Option WPPost) : OpResult Unit :=
  (none, [], .ok ())

/-- `getAllPosts` (lines 78-81): null entries are filtered out, each survivor
is translated; the first translation failure aborts (JS `map` rethrows). -/
def getAllPosts (now : JSDate) (resp : List (Option WPPost))
    (slot : Option WPPost) : OpResult (List BlogPost) :=
  (slot, [BackendCall.postFindAll], (resp.filterMap id).mapM (WPPostToBlogPost now))

/-- `getCurrentPost` (lines 83-88): translates the slot, or returns null. -/
def getCurrentPost (now : JSDate) (slot : Option WPPost) : OpResult (Option BlogPost) :=
  match slot with
  | none => (slot, [], .ok none)
  | some currentPost => (slot, [], (WPPostToBlogPost now currentPost).map some)

/-- The serializable state slice (`WordPressBlogState`): a single optional
native post. -/
structure WordPressBlogState where
  currentPost : Option WPPost
deriving DecidableEq, Repr

/-- The checkpoint shape `{ currentPost: WPPost | null }`. -/
structure SerializedBlogState where
  currentPost : Option WPPost
deriving DecidableEq, Repr

/-- `WordPressBlogState.serialize`. -/
def WordPressBlogState.serialize (s : WordPressBlogState) : SerializedBlogState :=
  { currentPost := s.currentPost }

/-- Models `data.currentPost || null`: an object is truthy, so a present
record is kept and `null`/absent becomes `none`. -/
def jsPostOrNull : Option WPPost → Option WPPost
  | some p => some p
  | none => none

/-- `WordPressBlogState.deserialize` (mutation modelled as returning the new
state). -/
def WordPressBlogState.deserialize (_s : WordPressBlogState)
    (data : SerializedBlogState) : WordPressBlogState :=
  { currentPost := jsPostOrNull data.currentPost }

/-- `WordPressBlogState.reset`: empties the slot iff the scope set contains
the chat marker. -/
def WordPressBlogState.reset (s : WordPressBlogState) (what : List String) :
    WordPressBlogState :=
  if what.contains "chat" then { currentPost := none } else s

/-- A provider operation together with the external effects it consumed:
the renderer, the tag-registry oracles, the wall clock and the backend's
reply for that call. -/
inductive ProviderOp where
  | create (render : String → String)
      (tagSearch : String → Except Unit (List (Option WPTag)))
      (tagCreate : String → Except Unit (Option WPTag))
      (now : JSDate) (resp : Option WPPost) (data : CreatePostData)
  | update (render : String → String)
      (tagSearch : String → Except Unit (List (Option WPTag)))
      (tagCreate : String → Except Unit (Option WPTag))
      (now : JSDate) (resp : Option WPPost) (data : UpdatePostData)
  | selectById (now : JSDate) (resp : List (Option WPPost)) (idStr : String)
  | clear
  | getAll (now : JSDate) (resp : List (Option WPPost))
  | getCurrent (now : JSDate)

/-- The current-post slot after running one provider operation. -/
def stepSlot (slot : Option WPPost) : ProviderOp → Option WPPost
  | .create render tagSearch tagCreate now resp data =>
    (createPost render tagSearch tagCreate now resp data slot).1
  | .update render tagSearch tagCreate now resp data =>
    (updatePost render tagSearch tagCreate now resp data slot).1
  | .selectById now resp idStr => (selectPostById now resp idStr slot).1
  | .clear => (clearCurrentPost slot).1
  | .getAll now resp => (getAllPosts now resp slot).1
  | .getCurrent now => (getCurrentPost now slot).1

/-- The native record the backend handed back in this operation, if any:
the create/update response, or the found record of select-by-id. -/
def respOf : ProviderOp → Option WPPost
  | .create _ _ _ _ resp _ => resp
  | .update _ _ _ _ resp _ => resp
  | .selectById _ resp _ =>
    match resp.head? with
    | some (some p) => some p
    | _ => none
  | .clear => none
  | .getAll _ _ => none
  | .getCurrent _ => none

/-- The slot after a sequence of provider operations. -/
def runOps (slot : Option WPPost) (ops : List ProviderOp) : Option WPPost :=
  ops.foldl stepSlot slot

/-- Each operation either leaves the slot alone, empties it, or stores
exactly the record the backend returned in that operation. -/
theorem stepSlot_shape (slot : Option WPPost) (op : ProviderOp) :
    stepSlot slot op = slot ∨ stepSlot slot op = none ∨
      ∃ r, respOf op = some r ∧ stepSlot slot op = some r := by
  cases op with
  | create render tagSearch tagCreate now resp data =>
    cases slot with
    | some p => left; rfl
    | none =>
      rcases hfi : data.feature_image with _ | fi
      · cases resp with
        | some r =>
          right; right; exact ⟨r, rfl, by simp [stepSlot, createPost, hfi]⟩
        | none => right; left; simp [stepSlot, createPost, hfi]
      · by_cases h : strTruthy fi.id = true
        · cases resp with
          | some r =>
            right; right; exact ⟨r, rfl, by simp [stepSlot, createPost, hfi, h]⟩
          | none => right; left; simp [stepSlot, createPost, hfi, h]
        · right; left; simp [stepSlot, createPost, hfi, h]
  | update render tagSearch tagCreate now resp data =>
    cases slot with
    | none => left; rfl
    | some p =>
      rcases hfi : data.feature_image with _ | fi
      · cases resp with
        | some r =>
          right; right; exact ⟨r, rfl, by simp [stepSlot, updatePost, hfi]⟩
        | none => left; simp [stepSlot, updatePost, hfi]
      · by_cases h : strTruthy fi.id = true
        · cases resp with
          | some r =>
            right; right; exact ⟨r, rfl, by simp [stepSlot, updatePost, hfi, h]⟩
          | none => left; simp [stepSlot, updatePost, hfi, h]
        · left; simp [stepSlot, updatePost, hfi, h]
  | selectById now resp idStr =>
    match h : resp.head? with
    | some (some p) =>
      right; right
      exact ⟨p, by simp [respOf, h], by simp [stepSlot, selectPostById, h]⟩
    | some none => left; simp [stepSlot, selectPostById, h]
    | none => left; simp [stepSlot, selectPostById, h]
  | clear => right; left; rfl
  | getAll now resp => left; rfl
  | getCurrent now => left; cases slot <;> rfl

/-- C9: invariant kept by every provider operation — whenever the slot is
non-empty after a run from the initial empty state, its value is exactly the
native record the backend returned in some operation of the run, namely the
most recent one that touched the slot: every later operation left the slot
at that same value.  No operation ever stores a caller-constructed or
locally modified record. -/
theorem slot_holds_backend_record (ops : List ProviderOp) (p : WPPost)
    (h : runOps none ops = some p) :
    ∃ l1 op l2, ops = l1 ++ op :: l2 ∧ respOf op = some p ∧
      ∀ op2 ∈ l2, stepSlot (some p) op2 = some p := by
  induction ops using List.reverseRecOn with
  | nil => simp [runOps] at h
  | append_singleton ops op ih =>
    rw [runOps, List.foldl_append, List.foldl_cons, List.foldl_nil] at h
    rcases stepSlot_shape (List.foldl stepSlot none ops) op with heq | heq | ⟨r, hr, heq⟩
    · have hprev : List.foldl stepSlot none ops = some p := by rw [← heq]; exact h
      obtain ⟨l1, op0, l2, hsplit, hresp, hpres⟩ := ih hprev
      refine ⟨l1, op0, l2 ++ [op], by rw [hsplit]; simp, hresp, ?_⟩
      intro op2 hmem
      rcases List.mem_append.mp hmem with hm | hm
      · exact hpres op2 hm
      · have hop2 : op2 = op := by simpa using hm
        subst hop2
        rw [hprev] at heq
        exact heq
    · rw [heq] at h; cases h
    · have hrp : r = p := by
        rw [heq] at h
        exact Option.some_injective _ h
      subst hrp
      exact ⟨ops, op, [], by simp, hr, by simp⟩

/-- C4: for all five domain statuses `s`,
`toNative (toDomain (toNative s)) = toNative s`, and `toDomain` of any native
value outside the five-row table falls back to `draft`. -/
theorem status_roundtrip_and_fallback :
    (∀ s : BlogStatus, statusToNative (statusToDomain (statusToNative s)) = statusToNative s) ∧
    (∀ n : String, n ∉ ["publish", "future", "draft", "pending", "private"] →
      statusToDomain n = BlogStatus.draft) := by
  constructor
  · intro s; cases s <;> rfl
  · intro n hn
    simp only [List.mem_cons, List.not_mem_nil, or_false, not_or] at hn
    obtain ⟨h1, h2, h3, h4, h5⟩ := hn
    simp [statusToDomain, h1, h2, h3, h4, h5]

/-- Witness for C4 at `published` and the unrecognized native value `"junk"`. -/
theorem status_roundtrip_and_fallback_witness :
    statusToNative (statusToDomain (statusToNative .published)) = statusToNative .published ∧
    statusToDomain "junk" = BlogStatus.draft :=
  ⟨status_roundtrip_and_fallback.1 .published,
   status_roundtrip_and_fallback.2 "junk" (by decide)⟩

/-- C5 counterexample: a record whose `status` field is present (the empty
string) and whose other three required fields are present is nevertheless
rejected with the missing-status error, so "succeeds when all four are
present" fails as stated. -/
theorem translator_rejects_present_empty_status :
    WPPostToBlogPost (.fromClock 0)
        ⟨some 1, none, none, some ⟨"T"⟩, some ⟨"B", false⟩, some "", none, none⟩ =
      .error "Cannot convert WPPost to BlogPost: Missing required field: status" ∧
    (⟨some 1, none, none, some ⟨"T"⟩, some ⟨"B", false⟩, some "", none, none⟩ : WPPost).status.isSome = true :=
  ⟨rfl, rfl⟩

/-- C5 (amended): translation fails with an error naming the first absent
field when identifier, title, content or status is absent, and succeeds when
all four are present with a truthy value (identifier non-zero, status
non-empty). -/
theorem translator_field_validation (now : JSDate) (p : WPPost) :
    (p.id = none →
      WPPostToBlogPost now p = .error "Cannot convert WPPost to BlogPost: Missing required field: id") ∧
    (∀ i, p.id = some i → i ≠ 0 → p.title = none →
      WPPostToBlogPost now p = .error "Cannot convert WPPost to BlogPost: Missing required field: title") ∧
    (∀ i t, p.id = some i → i ≠ 0 → p.title = some t → p.content = none →
      WPPostToBlogPost now p = .error "Cannot convert WPPost to BlogPost: Missing required field: content") ∧
    (∀ i t c, p.id = some i → i ≠ 0 → p.title = some t → p.content = some c → p.status = none →
      WPPostToBlogPost now p = .error "Cannot convert WPPost to BlogPost: Missing required field: status") ∧
    (∀ i t c st, p.id = some i → i ≠ 0 → p.title = some t → p.content = some c →
      p.status = some st → st ≠ "" → ∃ b, WPPostToBlogPost now p = .ok b) := by
  refine ⟨?_, ?_, ?_, ?_, ?_⟩
  · intro h; simp [WPPostToBlogPost, h]
  · intro i hi hne ht; simp [WPPostToBlogPost, hi, hne, ht]
  · intro i t hi hne ht hc; simp [WPPostToBlogPost, hi, hne, ht, hc]
  · intro i t c hi hne ht hc hs; simp [WPPostToBlogPost, hi, hne, ht, hc, hs]
  · intro i t c st hi hne ht hc hs hst
    exact ⟨⟨toString i, t.rendered, c.rendered, statusToDomain st,
            jsDateOrNow p.modified_gmt now, jsDateOrNow p.modified_gmt now,
            jsDateOrNow p.date_gmt now⟩,
           by simp [WPPostToBlogPost, hi, hne, ht, hc, hs, hst]⟩

/-- Witness for C5 (amended) on concrete records exercising every conjunct. -/
theorem translator_field_validation_witness :
    (WPPostToBlogPost (.fromClock 0) ⟨none, none, none, some ⟨"T"⟩, some ⟨"B", false⟩, some "draft", none, none⟩ =
       .error "Cannot convert WPPost to BlogPost: Missing required field: id") ∧
    (WPPostToBlogPost (.fromClock 0) ⟨some 1, none, none, none, some ⟨"B", false⟩, some "draft", none, none⟩ =
       .error "Cannot convert WPPost to BlogPost: Missing required field: title") ∧
    (WPPostToBlogPost (.fromClock 0) ⟨some 1, none, none, some ⟨"T"⟩, none, some "draft", none, none⟩ =
       .error "Cannot convert WPPost to BlogPost: Missing required field: content") ∧
    (WPPostToBlogPost (.fromClock 0) ⟨some 1, none, none, some ⟨"T"⟩, some ⟨"B", false⟩, none, none, none⟩ =
       .error "Cannot convert WPPost to BlogPost: Missing required field: status") ∧
    (∃ b, WPPostToBlogPost (.fromClock 0) ⟨some 1, none, none, some ⟨"T"⟩, some ⟨"B", false⟩, some "draft", none, none⟩ =
       .ok b) :=
  ⟨(translator_field_validation (.fromClock 0) _).1 rfl,
   (translator_field_validation (.fromClock 0) _).2.1 1 rfl (by decide) rfl,
   (translator_field_validation (.fromClock 0) _).2.2.1 1 ⟨"T"⟩ rfl (by decide) rfl rfl,
   (translator_field_validation (.fromClock 0) _).2.2.2.1 1 ⟨"T"⟩ ⟨"B", false⟩ rfl (by decide) rfl rfl rfl,
   (translator_field_validation (.fromClock 0) _).2.2.2.2 1 ⟨"T"⟩ ⟨"B", false⟩ "draft" rfl (by decide) rfl rfl rfl (by decide)⟩

/-- C10: a native record whose identifier equals 0, with title, content and
status all present, is rejected with the missing-identifier error even though
the identifier field is present (JS `!id` treats 0 as missing). -/
theorem translator_rejects_zero_id (now : JSDate) (p : WPPost)
    (hid : p.id = some 0) (_ht : p.title.isSome = true) (_hc : p.content.isSome = true)
    (_hs : p.status.isSome = true) :
    WPPostToBlogPost now p = .error "Cannot convert WPPost to BlogPost: Missing required field: id" := by
  simp [WPPostToBlogPost, hid]

/-- Witness for C10 on a fully populated record with identifier 0. -/
theorem translator_rejects_zero_id_witness :
    WPPostToBlogPost (.fromClock 0)
        ⟨some 0, some "2024-01-01", some "2024-01-02", some ⟨"T"⟩, some ⟨"B", false⟩, some "publish", none, none⟩ =
      .error "Cannot convert WPPost to BlogPost: Missing required field: id" :=
  translator_rejects_zero_id (.fromClock 0) _ rfl rfl rfl rfl

/-- In any successful translation the three normalized timestamps are the
JS-truthiness selections `modified_gmt ? new Date(modified_gmt) : now` and
`date_gmt ? new Date(date_gmt) : now`. -/
theorem WPPostToBlogPost_ok_dates (now : JSDate) (p : WPPost) (b : BlogPost)
    (h : WPPostToBlogPost now p = .ok b) :
    b.created_at = jsDateOrNow p.modified_gmt now ∧
    b.updated_at = jsDateOrNow p.modified_gmt now ∧
    b.published_at = jsDateOrNow p.date_gmt now := by
  obtain ⟨pid, pdg, pmg, ptitle, pcontent, pstatus, ptags, pfm⟩ := p
  rcases pid with _ | i
  · exact absurd h (by simp [WPPostToBlogPost])
  · by_cases hi : i = 0
    · exact absurd h (by simp [WPPostToBlogPost, hi])
    · rcases ptitle with _ | t
      · exact absurd h (by simp [WPPostToBlogPost, hi])
      · rcases pcontent with _ | c
        · exact absurd h (by simp [WPPostToBlogPost, hi])
        · rcases pstatus with _ | st
          · exact absurd h (by simp [WPPostToBlogPost, hi])
          · by_cases hs : st = ""
            · exact absurd h (by simp [WPPostToBlogPost, hi, hs])
            · simp only [WPPostToBlogPost, if_neg hi, if_neg hs, Except.ok.injEq] at h
              subst h
              exact ⟨rfl, rfl, rfl⟩

/-- C6 counterexample: a record whose modification timestamp is present but
is the empty string translates with `created_at = now` (the wall clock), not
the given timestamp, so "if a modification timestamp is present then
created-at equals it" fails as stated. -/
theorem created_at_ignores_empty_modified_gmt :
    (⟨some 1, none, some "", some ⟨"T"⟩, some ⟨"B", false⟩, some "draft", none, none⟩ : WPPost).modified_gmt.isSome = true ∧
    (WPPostToBlogPost (.fromClock 0)
        ⟨some 1, none, some "", some ⟨"T"⟩, some ⟨"B", false⟩, some "draft", none, none⟩).map BlogPost.created_at =
      .ok (.fromClock 0) ∧
    JSDate.fromClock 0 ≠ JSDate.fromString "" :=
  ⟨rfl, rfl, by decide⟩

/-- C6 (amended): in every successful translation, a present *non-empty*
modification timestamp becomes both created-at and updated-at, a present
non-empty publish timestamp becomes published-at, and an absent or empty
timestamp defaults to the translation-time wall clock. -/
theorem translator_timestamp_policy (now : JSDate) (p : WPPost) (b : BlogPost)
    (h : WPPostToBlogPost now p = .ok b) :
    (∀ m, p.modified_gmt = some m → m ≠ "" →
      b.created_at = .fromString m ∧ b.updated_at = .fromString m) ∧
    (∀ d, p.date_gmt = some d → d ≠ "" → b.published_at = .fromString d) ∧
    ((p.modified_gmt = none ∨ p.modified_gmt = some "") →
      b.created_at = now ∧ b.updated_at = now) ∧
    ((p.date_gmt = none ∨ p.date_gmt = some "") → b.published_at = now) := by
  obtain ⟨h1, h2, h3⟩ := WPPostToBlogPost_ok_dates now p b h
  refine ⟨?_, ?_, ?_, ?_⟩
  · intro m hm hne
    rw [h1, h2, hm]
    simp [jsDateOrNow, strTruthy, hne]
  · intro d hd hne
    rw [h3, hd]
    simp [jsDateOrNow, strTruthy, hne]
  · rintro (hm | hm) <;> rw [h1, h2, hm] <;> simp [jsDateOrNow, strTruthy]
  · rintro (hd | hd) <;> rw [h3, hd] <;> simp [jsDateOrNow, strTruthy]

/-- Witness for C6 (amended) on a record carrying both timestamps. -/
theorem translator_timestamp_policy_witness :
    (JSDate.fromString "2024-01-02" = JSDate.fromString "2024-01-02" ∧
       JSDate.fromString "2024-01-02" = JSDate.fromString "2024-01-02") ∧
    JSDate.fromString "2024-01-01" = JSDate.fromString "2024-01-01" :=
  let p : WPPost :=
    ⟨some 1, some "2024-01-01", some "2024-01-02", some ⟨"T"⟩, some ⟨"B", false⟩, some "draft", none, none⟩
  let b : BlogPost :=
    ⟨"1", "T", "B", .draft, .fromString "2024-01-02", .fromString "2024-01-02", .fromString "2024-01-01"⟩
  let big := translator_timestamp_policy (.fromClock 0) p b rfl
  ⟨big.1 "2024-01-02" rfl (by decide), big.2.1 "2024-01-01" rfl (by decide)⟩

/-- C8: serializing then deserializing the state slice reproduces an
identical current-post slot value — `null` stays `null` and a populated slot
round-trips the exact native record (the deserializing state's previous slot
is irrelevant). -/
theorem state_serialize_roundtrip (s t : WordPressBlogState) :
    t.deserialize s.serialize = s := by
  obtain ⟨cp⟩ := s
  cases cp <;> rfl

/-- C3: create while a post is selected, and update while none is selected,
each fail with their precondition error, issue no backend call, and leave
the current-post slot unchanged. -/
theorem precondition_errors_no_backend_call :
    (∀ render tagSearch tagCreate now resp data p,
      createPost render tagSearch tagCreate now resp data (some p) =
        (some p, [],
         .error "A post is currently selected. Clear the selection before creating a new post.")) ∧
    (∀ render tagSearch tagCreate now resp data,
      updatePost render tagSearch tagCreate now resp data none =
        (none, [], .error "No post is currently selected. Select a post before updating.")) :=
  ⟨fun _ _ _ _ _ _ _ => rfl, fun _ _ _ _ _ _ => rfl⟩

/-- A create request carrying a feature-image reference whose id is a
non-numeric, non-empty string. -/
def nonNumericImageData : CreatePostData :=
  ⟨"Hello", some "body", none, some ⟨some "not-a-number", some "https://cdn.example/img.png"⟩⟩

/-- The backend's reply to the create call in the C1 counterexample. -/
def wpCreated : WPPost :=
  ⟨some 10, some "2024-05-05", some "2024-05-06", some ⟨"Hello"⟩, some ⟨"<p>body</p>", false⟩,
   some "draft", some [], none⟩

/-- C1 counterexample: with a feature-image reference whose id is the
non-numeric string `"not-a-number"` (it does not parse as an integer), the
create validation does not reject — the backend create call *is* issued,
and the operation succeeds.  Only a falsy (absent/empty) id is rejected. -/
theorem create_accepts_nonnumeric_feature_id :
    jsParseInt "not-a-number" = none ∧
    createPost id (fun _ => .ok []) (fun _ => .ok none) (.fromClock 0) (some wpCreated)
        nonNumericImageData none =
      (some wpCreated,
       [BackendCall.postCreate
          ⟨⟨"Hello"⟩, ⟨"body", false⟩, "draft", [],
           some ⟨some "not-a-number", some "https://cdn.example/img.png"⟩⟩],
       .ok ⟨"10", "Hello", "<p>body</p>", .draft, .fromString "2024-05-06",
            .fromString "2024-05-06", .fromString "2024-05-05"⟩) :=
  ⟨rfl, rfl⟩

/-- C1 (amended): a create whose feature-image reference carries a falsy id
(absent or empty string) fails with the descriptive CDN-misconfiguration
error and issues no backend call. -/
theorem create_rejects_falsy_feature_id
    (render : String → String) (tagSearch : String → Except Unit (List (Option WPTag)))
    (tagCreate : String → Except Unit (Option WPTag)) (now : JSDate)
    (resp : Option WPPost) (data : CreatePostData) (fi : FeatureImage)
    (hfi : data.feature_image = some fi) (hid : strTruthy fi.id = false) :
    createPost render tagSearch tagCreate now resp data none =
      (none, [],
       .error "Wordpress feature image must be an attachment id - is wordpress not set as the CDN?") := by
  simp [createPost, hfi, hid]

/-- Witness for C1 (amended): a reference with an absent id is rejected. -/
theorem create_rejects_falsy_feature_id_witness :
    createPost id (fun _ => .ok []) (fun _ => .ok none) (.fromClock 0) (some wpCreated)
        ⟨"Hello", some "body", none, some ⟨none, some "https://cdn.example/img.png"⟩⟩ none =
      (none, [],
       .error "Wordpress feature image must be an attachment id - is wordpress not set as the CDN?") :=
  create_rejects_falsy_feature_id id (fun _ => .ok []) (fun _ => .ok none) (.fromClock 0)
    (some wpCreated) _ ⟨none, some "https://cdn.example/img.png"⟩ rfl rfl

/-- A tag registry holding one tag, `Tech` with id 7, whose search matches
case-insensitively (as WordPress search does). -/
def tagRegistrySearch : String → Except Unit (List (Option WPTag)) := fun q =>
  if jsToLower q == "tech" then .ok [some ⟨7, some "Tech"⟩] else .ok []

/-- Tag creation against that registry: creating `New` yields id 9. -/
def tagRegistryCreate : String → Except Unit (Option WPTag) := fun q =>
  if q == "New" then .ok (some ⟨9, some "New"⟩) else .ok none

/-- C2 counterexample: resolving `["Tech", "tech", "New"]` against a registry
already containing `Tech` (id 7) returns `[7, 7, 9]` — the existing id is
contributed once per occurrence, i.e. twice, not "exactly once" as claimed. -/
theorem resolve_duplicates_existing_id :
    (getOrCreateTagIds tagRegistrySearch tagRegistryCreate ["Tech", "tech", "New"]).1 = [7, 7, 9] ∧
    ((getOrCreateTagIds tagRegistrySearch tagRegistryCreate ["Tech", "tech", "New"]).1.count 7 = 1 →
      False) :=
  ⟨rfl, by decide⟩

/-- C2 (amended): resolving `["Tech", "tech", "New"]` against a registry
already containing `Tech`, both case variants resolve to the same existing
id — once per input occurrence, so the id list is `[7, 7, 9]` with 7
appearing twice — and exactly one new tag is created, for `New`. -/
theorem resolve_case_insensitive_per_occurrence :
    getOrCreateTagIds tagRegistrySearch tagRegistryCreate ["Tech", "tech", "New"] =
      ([7, 7, 9],
       [.tagSearch "Tech", .tagSearch "tech", .tagSearch "New", .tagCreate "New"]) :=
  rfl

/-- Resolution is per-name: the ids of `a :: l` are the ids of `[a]` followed
by the ids of `l`. -/
theorem getOrCreateTagIds_cons (search : String → Except Unit (List (Option WPTag)))
    (create : String → Except Unit (Option WPTag)) (a : String) (l : List String) :
    (getOrCreateTagIds search create (a :: l)).1 =
      (getOrCreateTagIds search create [a]).1 ++ (getOrCreateTagIds search create l).1 := by
  rcases hs : search a with e | tags
  · simp [getOrCreateTagIds, hs]
  · rcases hf : tags.find? (tagNameMatches a) with _ | t
    · rcases hc : create a with e | nt
      · simp [getOrCreateTagIds, hs, hf, hc]
      · rcases nt with _ | tag <;> simp [getOrCreateTagIds, hs, hf, hc]
    · rcases t with _ | tag <;> simp [getOrCreateTagIds, hs, hf]

/-- The id list of a concatenated batch is the concatenation of the id
lists: one name's outcome never affects the others. -/
theorem getOrCreateTagIds_append (search : String → Except Unit (List (Option WPTag)))
    (create : String → Except Unit (Option WPTag)) (l1 l2 : List String) :
    (getOrCreateTagIds search create (l1 ++ l2)).1 =
      (getOrCreateTagIds search create l1).1 ++ (getOrCreateTagIds search create l2).1 := by
  induction l1 with
  | nil => simp [getOrCreateTagIds]
  | cons a l ih =>
    rw [List.cons_append, getOrCreateTagIds_cons, getOrCreateTagIds_cons search create a l,
      ih, List.append_assoc]

/-- The error-or-value outcome of `createPost` does not depend on the tag
oracles (only the ids embedded in the payload do). -/
theorem createPost_outcome_tag_independent (render : String → String)
    (s1 s2 : String → Except Unit (List (Option WPTag)))
    (c1 c2 : String → Except Unit (Option WPTag)) (now : JSDate)
    (resp : Option WPPost) (data : CreatePostData) (slot : Option WPPost) :
    (createPost render s1 c1 now resp data slot).2.2 =
      (createPost render s2 c2 now resp data slot).2.2 := by
  cases slot with
  | some p => rfl
  | none =>
    rcases hfi : data.feature_image with _ | fi
    · cases resp <;> simp [createPost, hfi]
    · by_cases h : strTruthy fi.id = true
      · cases resp <;> simp [createPost, hfi, h]
      · simp [createPost, hfi, h]

/-- The error-or-value outcome of `updatePost` does not depend on the tag
oracles either. -/
theorem updatePost_outcome_tag_independent (render : String → String)
    (s1 s2 : String → Except Unit (List (Option WPTag)))
    (c1 c2 : String → Except Unit (Option WPTag)) (now : JSDate)
    (resp : Option WPPost) (data : UpdatePostData) (slot : Option WPPost) :
    (updatePost render s1 c1 now resp data slot).2.2 =
      (updatePost render s2 c2 now resp data slot).2.2 := by
  cases slot with
  | none => rfl
  | some p =>
    rcases hfi : data.feature_image with _ | fi
    · cases resp <;> simp [updatePost, hfi]
    · by_cases h : strTruthy fi.id = true
      · cases resp <;> simp [updatePost, hfi, h]
      · simp [updatePost, hfi, h]

/-- C7: a lookup failure, or a create failure after an unmatched lookup,
makes that name contribute no id; the rest of the batch resolves exactly as
it would alone; and the enclosing create/update's error-or-value outcome is
unaffected by whatever the tag oracles do. -/
theorem tag_failures_skipped_batch_continues :
    (∀ search create (name : String), search name = .error () →
      (getOrCreateTagIds search create [name]).1 = []) ∧
    (∀ search create (name : String) tags, search name = .ok tags →
      tags.find? (tagNameMatches name) = none → create name = .error () →
      (getOrCreateTagIds search create [name]).1 = []) ∧
    (∀ search create (l1 l2 : List String),
      (getOrCreateTagIds search create (l1 ++ l2)).1 =
        (getOrCreateTagIds search create l1).1 ++ (getOrCreateTagIds search create l2).1) ∧
    (∀ render s1 s2 c1 c2 now resp data slot,
      (createPost render s1 c1 now resp data slot).2.2 =
        (createPost render s2 c2 now resp data slot).2.2) ∧
    (∀ render s1 s2 c1 c2 now resp data slot,
      (updatePost render s1 c1 now resp data slot).2.2 =
        (updatePost render s2 c2 now resp data slot).2.2) := by
  refine ⟨?_, ?_, ?_, ?_, ?_⟩
  · intro search create name hs
    simp [getOrCreateTagIds, hs]
  · intro search create name tags hs hf hc
    simp [getOrCreateTagIds, hs, hf, hc]
  · exact getOrCreateTagIds_append
  · intro render s1 s2 c1 c2 now resp data slot
    exact createPost_outcome_tag_independent render s1 s2 c1 c2 now resp data slot
  · intro render s1 s2 c1 c2 now resp data slot
    exact updatePost_outcome_tag_independent render s1 s2 c1 c2 now resp data slot

/-- A registry whose lookups always throw. -/
def throwingSearch : String → Except Unit (List (Option WPTag)) := fun _ => .error ()

/-- Witness for C7: with a throwing lookup the failing name contributes no
id, and a batch around it still resolves the healthy names. -/
theorem tag_failures_skipped_batch_continues_witness :
    (getOrCreateTagIds throwingSearch tagRegistryCreate ["Tech"]).1 = [] ∧
    (getOrCreateTagIds tagRegistrySearch (fun _ => .error ()) ["New"]).1 = [] ∧
    (getOrCreateTagIds tagRegistrySearch tagRegistryCreate (["Tech"] ++ ["New"])).1 =
      (getOrCreateTagIds tagRegistrySearch tagRegistryCreate ["Tech"]).1 ++
        (getOrCreateTagIds tagRegistrySearch tagRegistryCreate ["New"]).1 ∧
    (createPost id throwingSearch tagRegistryCreate (.fromClock 0) (some wpCreated)
        ⟨"Hello", some "body", some ["Tech"], none⟩ none).2.2 =
      (createPost id tagRegistrySearch tagRegistryCreate (.fromClock 0) (some wpCreated)
        ⟨"Hello", some "body", some ["Tech"], none⟩ none).2.2 :=
  ⟨tag_failures_skipped_batch_continues.1 throwingSearch tagRegistryCreate "Tech" rfl,
   tag_failures_skipped_batch_continues.2.1 tagRegistrySearch (fun _ => .error ()) "New" [] rfl rfl rfl,
   tag_failures_skipped_batch_continues.2.2.1 tagRegistrySearch tagRegistryCreate ["Tech"] ["New"],
   tag_failures_skipped_batch_continues.2.2.2.1 id throwingSearch tagRegistrySearch tagRegistryCreate
     tagRegistryCreate (.fromClock 0) (some wpCreated) ⟨"Hello", some "body", some ["Tech"], none⟩ none⟩

/-- The record the backend returns in the C9 witness run. -/
def wpSelected : WPPost :=
  ⟨some 5, none, none, some ⟨"t"⟩, some ⟨"c", false⟩, some "draft", none, none⟩

/-- Witness for C9: a one-operation run that selects post 5. -/
theorem slot_holds_backend_record_witness :
    ∃ l1 op l2,
      [ProviderOp.selectById (.fromClock 0) [some wpSelected] "5"] = l1 ++ op :: l2 ∧
      respOf op = some wpSelected ∧
      ∀ op2 ∈ l2, stepSlot (some wpSelected) op2 = some wpSelected :=
  slot_holds_backend_record [ProviderOp.selectById (.fromClock 0) [some wpSelected] "5"]
    wpSelected rfl
